import Mathlib

/-!
Shallow embedding of the query-repair workflow of `src/sql_agent.py`.

The LangGraph state (`SQLState`, a TypedDict) is modelled as a record of
optional string fields: `none` means the key is absent from the state
dict, `some v` means the key is present with value `v`.  Node functions
return an update record that is merged into the state (returned keys
overwrite, other keys are kept, keys are never removed), exactly as the
LangGraph channel semantics does for a plain TypedDict schema.

The language model (`llm.invoke` on a single system message) is modelled
as a function from the prompt content to the response content, and the
database layer (`db_chain.run`) as a function from a statement to either
its textual output or an error message.  Both live in an `Env` record
together with the schema text returned by `get_schema`.
-/

set_option maxRecDepth 100000

namespace SQLAgent

/-- The six fields of the `SQLState` TypedDict of `src/sql_agent.py`.
`none` models absence of the key from the LangGraph state dict. -/
structure SQLState where
  query : Option String := none
  sql : Option String := none
  result : Option String := none
  explanation : Option String := none
  schema : Option String := none
  error : Option String := none
  deriving DecidableEq

/-- External collaborators of the workflow: the language model (prompt
content to response content), the database runner (statement to output
or error), and the schema text returned by `get_schema`. -/
structure Env where
  llm : String → String
  dbRun : String → Except String String
  schema : String

/-- Equality of database outcomes is decidable, so concrete runs can
be checked by computation. -/
instance : DecidableEq (Except String String) := fun a b =>
  match a, b with
  | .ok x, .ok y => decidable_of_iff (x = y) (by simp)
  | .ok _, .error _ => .isFalse (fun h => Except.noConfusion h)
  | .error _, .ok _ => .isFalse (fun h => Except.noConfusion h)
  | .error x, .error y => decidable_of_iff (x = y) (by simp)

/-- `QUERY_PROMPT.format(schema=..., query=...)` of `src/sql_agent.py`. -/
def QUERY_PROMPT (schema query : String) : String :=
  "You are a SQL query generator. Given a natural language question, generate a SQL query that answers it.\nDatabase schema: " ++ schema ++ "\nQuestion: " ++ query ++ "\nGenerated SQL query:"

/-- `EXPLANATION_PROMPT.format(sql=...)` of `src/sql_agent.py`. -/
def EXPLANATION_PROMPT (sql : String) : String :=
  "Explain the SQL query in simple terms:\nQuery: " ++ sql ++ "\nExplanation:"

/-- `ERROR_HANDLING_PROMPT.format(error=..., schema=..., query=..., sql=...)`
of `src/sql_agent.py`. -/
def ERROR_HANDLING_PROMPT (error schema query sql : String) : String :=
  "The previous query failed with error: " ++ error ++ "\nPlease analyze the error and generate a corrected SQL query.\nDatabase schema: " ++ schema ++ "\nOriginal question: " ++ query ++ "\nFailed query: " ++ sql ++ "\nCorrected SQL query:"

/-- Python `str.strip()`: drop whitespace from both ends.  Implemented
structurally over the character list so that it computes by kernel
reduction. -/
def pyStrip (s : String) : String :=
  String.mk (((s.toList.dropWhile Char.isWhitespace).reverse.dropWhile
    Char.isWhitespace).reverse)

/-- The output of one node call: the state update the node returns,
the prompt contents it sent to the language model, and the statements
it handed to the database (in order). -/
structure NodeOut where
  update : SQLState := {}
  prompts : List String := []
  executed : List String := []
  deriving DecidableEq

/-- `[stmt.strip() for stmt in sql.split(sep) if stmt.strip()]`, the
splitting step: Python str.split on a one-character separator. -/
def splitOnChar (sep : Char) : List Char → List (List Char)
  | [] => [[]]
  | c :: cs =>
    match splitOnChar sep cs with
    | [] => [[]]
    | h :: t => if c = sep then [] :: h :: t else (c :: h) :: t

/-- The statement list built by `execute_node` from the sql field:
split on the semicolon, strip each fragment, drop the blank ones. -/
def splitStatements (sql : String) : List String :=
  ((splitOnChar ';' sql.toList).map (fun cs => pyStrip (String.mk cs))).filter
    (fun st => st ≠ "")

/-- The per-statement loop of `execute_node`: run each statement, collect
outputs, stop at the first failure.  Returns the statements actually run
(in order, including a failing one) and the state update. -/
def execStmts (db : String → Except String String) :
    List String → List String → List String × SQLState
  | [], acc => ([], { result := some (String.intercalate "\n" acc.reverse) })
  | stmt :: rest, acc =>
    match db stmt with
    | .ok r =>
      let res := execStmts db rest (r :: acc)
      (stmt :: res.1, res.2)
    | .error e =>
      ([stmt],
       { error := some ("Error executing statement: " ++ stmt ++ "\nError: " ++ e) })

/-- The text of the Python KeyError raised for the missing sql key,
as caught and recorded by the outer try/except of `execute_node`. -/
def keyErrorSql : String :=
  String.mk [Char.ofNat 39, 's', 'q', 'l', Char.ofNat 39]

/-- `query_node` of `src/sql_agent.py`.  `none` models an uncaught
KeyError (missing `query` key). -/
def query_node (env : Env) (s : SQLState) : Option NodeOut :=
  match s.query with
  | none => none
  | some q =>
    let schema := s.schema.getD env.schema
    let prompt := QUERY_PROMPT schema q
    let sql := pyStrip (env.llm prompt)
    if sql = "" then
      some { update := { error := some "No SQL query generated" }, prompts := [prompt] }
    else
      some { update := { sql := some sql }, prompts := [prompt] }

/-- `execute_node` of `src/sql_agent.py`.  A missing `sql` key raises a
KeyError that the outer try/except of the node converts into an error
update, so this node is total. -/
def execute_node (env : Env) (s : SQLState) : NodeOut :=
  match s.sql with
  | none => { update := { error := some keyErrorSql } }
  | some sql =>
    let r := execStmts env.dbRun (splitStatements sql) []
    { update := r.2, executed := r.1 }

/-- `explain_node` of `src/sql_agent.py`.  `none` models an uncaught
KeyError (missing `sql` key).  The response is not stripped. -/
def explain_node (env : Env) (s : SQLState) : Option NodeOut :=
  match s.sql with
  | none => none
  | some sql =>
    let prompt := EXPLANATION_PROMPT sql
    some { update := { explanation := some (env.llm prompt) }, prompts := [prompt] }

/-- `error_handling_node` of `src/sql_agent.py`.  `none` models an
uncaught KeyError (missing `error`, `query` or `sql` key). -/
def error_handling_node (env : Env) (s : SQLState) : Option NodeOut :=
  match s.error, s.query, s.sql with
  | some err, some q, some sq =>
    let schema := s.schema.getD env.schema
    let prompt := ERROR_HANDLING_PROMPT err schema q sq
    let sql := pyStrip (env.llm prompt)
    if sql = "" then
      some { update := { error := some "Failed to generate corrected query" },
             prompts := [prompt] }
    else
      some { update := { sql := some sql }, prompts := [prompt] }
  | _, _, _ => none

/-- The `final_error` lambda node of `create_sql_agent`. -/
def final_error_node (s : SQLState) : NodeOut :=
  { update := { error := some ("Final error: " ++ s.error.getD "Unknown error") } }

/-- The named graph nodes added by `create_sql_agent`. -/
inductive Node
  | generate_sql
  | run_query
  | explain_query
  | handle_error
  | final_error
  deriving DecidableEq

/-- Dispatch of a graph node name to its node function. -/
def runNode (env : Env) : Node → SQLState → Option NodeOut
  | .generate_sql, s => query_node env s
  | .run_query, s => some (execute_node env s)
  | .explain_query, s => explain_node env s
  | .handle_error, s => error_handling_node env s
  | .final_error, s => some (final_error_node s)

/-- The edges of `create_sql_agent`, evaluated on the state after the
node update was merged.  The conditional edges test membership of the
`error` key in the state dict (the lambda tests key membership), not
whether its value is non-empty.  `none` is the END of the graph. -/
def route : Node → SQLState → Option Node
  | .generate_sql, _ => some .run_query
  | .run_query, s => some (if s.error.isSome then .handle_error else .explain_query)
  | .explain_query, _ => none
  | .handle_error, s => some (if s.error.isSome then .final_error else .run_query)
  | .final_error, _ => none

/-- Channel update for one field: a key returned by a node overwrites,
an unreturned key keeps its previous value. -/
def keepNew : Option String → Option String → Option String
  | some v, _ => some v
  | none, old => old

/-- Merge a node update into the state, LangGraph channel style: keys
are overwritten or kept, never removed. -/
def mergeState (s u : SQLState) : SQLState :=
  { query := keepNew u.query s.query
    sql := keepNew u.sql s.sql
    result := keepNew u.result s.result
    explanation := keepNew u.explanation s.explanation
    schema := keepNew u.schema s.schema
    error := keepNew u.error s.error }

/-- How a traversal of the compiled graph ended: reached END, raised an
uncaught exception out of a node, or hit the executor recursion limit. -/
inductive Status
  | finished
  | raised
  | outOfFuel
  deriving DecidableEq

/-- The observable outcome of a graph traversal: final state, the nodes
executed together with the state each saw, the prompts sent to the
language model, and the statements handed to the database. -/
structure RunResult where
  state : SQLState
  visited : List (Node × SQLState) := []
  prompts : List String := []
  executed : List String := []
  status : Status
  deriving DecidableEq

/-- Step-by-step traversal of the compiled graph: run the current node,
merge its update, follow the outgoing (possibly conditional) edge,
until END, an uncaught exception, or fuel exhaustion (the executor
recursion limit). -/
def runFrom (env : Env) : Nat → Node → SQLState → RunResult
  | 0, _, s => { state := s, status := .outOfFuel }
  | fuel + 1, n, s =>
    match runNode env n s with
    | none => { state := s, visited := [(n, s)], status := .raised }
    | some out =>
      let s2 := mergeState s out.update
      match route n s2 with
      | none =>
        { state := s2, visited := [(n, s)], prompts := out.prompts,
          executed := out.executed, status := .finished }
      | some n2 =>
        let r := runFrom env fuel n2 s2
        { state := r.state, visited := (n, s) :: r.visited,
          prompts := out.prompts ++ r.prompts,
          executed := out.executed ++ r.executed, status := r.status }

/-- The LangGraph default recursion limit. -/
def RECURSION_LIMIT : Nat := 25

/-- `agent.invoke(initial_state)` on the graph compiled by
`create_sql_agent`, entered at `generate_sql`. -/
def invokeAgent (env : Env) (s0 : SQLState) : RunResult :=
  runFrom env RECURSION_LIMIT .generate_sql s0

/-- The initial state built by `main` for a question `q`: every key
present, `sql`, `result`, `explanation` and `error` set to the empty
string, `schema` set to `get_schema()`. -/
def mainInit (env : Env) (q : String) : SQLState :=
  { query := some q, sql := some "", result := some "", explanation := some "",
    schema := some env.schema, error := some "" }

/-- One iteration of the `main` loop: invoke the agent on the initial
state built for the question `q`. -/
def mainRun (env : Env) (q : String) : RunResult :=
  invokeAgent env (mainInit env q)

/-- The closed form of one main-loop run of the agent, written out
step by step: generate, execute, repair, terminal failure.  Proved equal
to `mainRun` below (`mainRun_eq`); every main-loop run takes exactly
this path because the initial state already contains the `error` key. -/
def mainTrace (env : Env) (q : String) : RunResult :=
  let s0 := mainInit env q
  let p1 := QUERY_PROMPT env.schema q
  let r1 := pyStrip (env.llm p1)
  let u1 : SQLState :=
    if r1 = "" then { error := some "No SQL query generated" } else { sql := some r1 }
  let s1 := mergeState s0 u1
  let sq1 := if r1 = "" then "" else r1
  let e0 := if r1 = "" then "No SQL query generated" else ""
  let ex := execStmts env.dbRun (splitStatements sq1) []
  let s2 := mergeState s1 ex.2
  let e2 := ex.2.error.getD e0
  let p2 := ERROR_HANDLING_PROMPT e2 env.schema q sq1
  let r2 := pyStrip (env.llm p2)
  let u3 : SQLState :=
    if r2 = "" then { error := some "Failed to generate corrected query" }
    else { sql := some r2 }
  let s3 := mergeState s2 u3
  { state := mergeState s3 { error := some ("Final error: " ++ s3.error.getD "Unknown error") }
    visited := [(.generate_sql, s0), (.run_query, s1), (.handle_error, s2), (.final_error, s3)]
    prompts := [p1, p2]
    executed := ex.1
    status := .finished }

/-- A stub environment whose model always answers `SELECT 1` and whose
database accepts every statement with output `one`. -/
def envOk : Env :=
  { llm := fun _ => "SELECT 1", dbRun := fun _ => Except.ok "one", schema := "SCH" }

/-- A stub environment whose model always returns blank text. -/
def envBlank : Env :=
  { llm := fun _ => "", dbRun := fun _ => Except.ok "one", schema := "SCH" }

/-- A second environment definitionally equal to `envOk`, used to state
determinism across two model and database stand-ins that agree. -/
def envOkTwin : Env :=
  { llm := fun _ => "SELECT 1", dbRun := fun _ => Except.ok "one", schema := "SCH" }

/-- The execution error recorded when the database rejects the
statement `BAD` with message `boom`. -/
def errBAD : String := "Error executing statement: BAD\nError: boom"

/-- A stub environment whose model first generates the failing query
`BAD` and, when shown the repair prompt for it, answers the corrected
query `GOOD`; the database rejects `BAD` and accepts everything else. -/
def envRepair : Env :=
  { llm := fun p =>
      if p = ERROR_HANDLING_PROMPT errBAD "SCH" "qq" "BAD" then "GOOD" else "BAD"
    dbRun := fun st => if st = "BAD" then Except.error "boom" else Except.ok "fine"
    schema := "SCH" }

/-- A stub environment whose model returns blank text for the
generation prompt of question `q4` and the non-blank `FIXED` for every
other prompt. -/
def envBlankGen : Env :=
  { llm := fun p => if p = QUERY_PROMPT "SCH" "q4" then "" else "FIXED"
    dbRun := fun _ => Except.ok "one", schema := "SCH" }

/-- A state that contains the `error` key with an empty-string value,
as the initial state built by `main` does. -/
def sErrOnly : SQLState := { error := some "" }

/-- The state in which `run_query` executes during a main-loop run with
a blank generation: the `sql` key is present but empty. -/
def sRunEmptySql : SQLState :=
  { query := some "q", sql := some "", result := some "", explanation := some "",
    schema := some "SCH", error := some "No SQL query generated" }

/-! ### Basic lemmas about channel merging and the runner -/

@[simp]
theorem keepNew_some (v : String) (o : Option String) : keepNew (some v) o = some v := rfl

@[simp]
theorem keepNew_none (o : Option String) : keepNew none o = o := rfl

theorem keepNew_isSome (n o : Option String) (h : o.isSome) : (keepNew n o).isSome := by
  cases n <;> simp [keepNew, h]

@[simp]
theorem mergeState_query (s u : SQLState) :
    (mergeState s u).query = keepNew u.query s.query := rfl

@[simp]
theorem mergeState_sql (s u : SQLState) :
    (mergeState s u).sql = keepNew u.sql s.sql := rfl

@[simp]
theorem mergeState_result (s u : SQLState) :
    (mergeState s u).result = keepNew u.result s.result := rfl

@[simp]
theorem mergeState_explanation (s u : SQLState) :
    (mergeState s u).explanation = keepNew u.explanation s.explanation := rfl

@[simp]
theorem mergeState_schema (s u : SQLState) :
    (mergeState s u).schema = keepNew u.schema s.schema := rfl

@[simp]
theorem mergeState_error (s u : SQLState) :
    (mergeState s u).error = keepNew u.error s.error := rfl

/-- Unfolding equation of the runner for positive fuel. -/
theorem runFrom_succ (env : Env) (fuel : Nat) (n : Node) (s : SQLState) :
    runFrom env (fuel + 1) n s =
      match runNode env n s with
      | none => { state := s, visited := [(n, s)], status := .raised }
      | some out =>
        let s2 := mergeState s out.update
        match route n s2 with
        | none =>
          { state := s2, visited := [(n, s)], prompts := out.prompts,
            executed := out.executed, status := .finished }
        | some n2 =>
          let r := runFrom env fuel n2 s2
          { state := r.state, visited := (n, s) :: r.visited,
            prompts := out.prompts ++ r.prompts,
            executed := out.executed ++ r.executed, status := r.status } := rfl

/-- The update computed by the statement loop never touches the
`query`, `sql`, `schema` or `explanation` fields. -/
theorem execStmts_update_frame (db : String → Except String String)
    (stmts acc : List String) :
    (execStmts db stmts acc).2.query = none ∧ (execStmts db stmts acc).2.sql = none ∧
    (execStmts db stmts acc).2.schema = none ∧
    (execStmts db stmts acc).2.explanation = none := by
  induction stmts generalizing acc with
  | nil => simp [execStmts]
  | cons stmt rest ih =>
    cases h : db stmt with
    | ok r => simpa [execStmts, h] using ih (r :: acc)
    | error e => simp [execStmts, h]

/-- The update computed by the statement loop sets exactly one of the
`result` and `error` fields. -/
theorem execStmts_result_error (db : String → Except String String)
    (stmts acc : List String) :
    (execStmts db stmts acc).2.result.isSome =
      !((execStmts db stmts acc).2.error).isSome := by
  induction stmts generalizing acc with
  | nil => simp [execStmts]
  | cons stmt rest ih =>
    cases h : db stmt with
    | ok r => simpa [execStmts, h] using ih (r :: acc)
    | error e => simp [execStmts, h]

/-- Running from the terminal `final_error` node. -/
theorem runFrom_final_error (env : Env) (fuel : Nat) (s : SQLState) :
    runFrom env (fuel + 1) .final_error s =
      { state := mergeState s
          { error := some ("Final error: " ++ s.error.getD "Unknown error") },
        visited := [(.final_error, s)], status := .finished } := rfl

/-- Running from `explain_query` when the `sql` key is present. -/
theorem runFrom_explain (env : Env) (fuel : Nat) (s : SQLState) (sq : String)
    (hs : s.sql = some sq) :
    runFrom env (fuel + 1) .explain_query s =
      { state := mergeState s { explanation := some (env.llm (EXPLANATION_PROMPT sq)) },
        visited := [(.explain_query, s)],
        prompts := [EXPLANATION_PROMPT sq], status := .finished } := by
  simp [runFrom_succ, runNode, explain_node, hs, route]

theorem keepNew_getD (o : Option String) (d : String) :
    keepNew o (some d) = some (o.getD d) := by
  cases o <;> rfl

/-- Running from `handle_error` when the `error`, `query` and `sql`
keys are all present: the repair update is merged and, because the
`error` key is still present afterwards, the traversal always continues
to `final_error` and ends there. -/
theorem runFrom_handle_error (env : Env) (fuel : Nat) (s : SQLState) (e q sq : String)
    (he : s.error = some e) (hq : s.query = some q) (hs : s.sql = some sq) :
    runFrom env (fuel + 2) .handle_error s =
      (let p := ERROR_HANDLING_PROMPT e (s.schema.getD env.schema) q sq
       let r2 := pyStrip (env.llm p)
       let u3 : SQLState :=
         if r2 = "" then { error := some "Failed to generate corrected query" }
         else { sql := some r2 }
       let s3 := mergeState s u3
       { state := mergeState s3
           { error := some ("Final error: " ++ s3.error.getD "Unknown error") },
         visited := [(.handle_error, s), (.final_error, s3)],
         prompts := [p], status := .finished }) := by
  rw [show fuel + 2 = fuel + 1 + 1 from rfl]
  by_cases hr : pyStrip (env.llm (ERROR_HANDLING_PROMPT e (s.schema.getD env.schema) q sq)) = ""
  · simp [runFrom_succ, runNode, error_handling_node, he, hq, hs, hr, route,
      keepNew, runFrom_final_error, final_error_node]
  · simp [runFrom_succ, runNode, error_handling_node, he, hq, hs, hr, route,
      keepNew, runFrom_final_error, final_error_node]

/-- Running from `run_query` when the `error` key is already present
(as it is in every main-loop run): whatever the execution outcome, the
conditional edge sees the `error` key and routes to `handle_error`, and
from there the traversal always ends at `final_error`. -/
theorem runFrom_run_query_err (env : Env) (fuel : Nat) (s : SQLState) (e0 q sq : String)
    (he : s.error = some e0) (hq : s.query = some q) (hs : s.sql = some sq) :
    runFrom env (fuel + 3) .run_query s =
      (let ex := execStmts env.dbRun (splitStatements sq) []
       let s2 := mergeState s ex.2
       let e2 := ex.2.error.getD e0
       let p := ERROR_HANDLING_PROMPT e2 (s.schema.getD env.schema) q sq
       let r2 := pyStrip (env.llm p)
       let u3 : SQLState :=
         if r2 = "" then { error := some "Failed to generate corrected query" }
         else { sql := some r2 }
       let s3 := mergeState s2 u3
       { state := mergeState s3
           { error := some ("Final error: " ++ s3.error.getD "Unknown error") },
         visited := [(.run_query, s), (.handle_error, s2), (.final_error, s3)],
         prompts := [p], executed := ex.1, status := .finished }) := by
  have hfr := execStmts_update_frame env.dbRun (splitStatements sq) []
  rw [show fuel + 3 = fuel + 2 + 1 from rfl, runFrom_succ]
  simp only [runNode, execute_node, hs]
  have hroute : route .run_query
      (mergeState s (execStmts env.dbRun (splitStatements sq) []).2) =
      some .handle_error := by
    simp [route, keepNew_getD, he]
  simp only [hroute]
  rw [runFrom_handle_error env fuel _ ((execStmts env.dbRun (splitStatements sq) []).2.error.getD e0) q sq
    (by simp [keepNew_getD, he]) (by simp [hfr.1, hq]) (by simp [hfr.2.1, hs])]
  simp [hfr.2.2.1]

/-- Every main-loop run of the agent follows the closed form
`mainTrace`: generate, execute, repair, terminal failure. -/
theorem mainRun_eq (env : Env) (q : String) : mainRun env q = mainTrace env q := by
  have hlim : RECURSION_LIMIT = 24 + 1 := rfl
  unfold mainRun invokeAgent mainTrace
  rw [hlim, runFrom_succ]
  by_cases hr1 : pyStrip (env.llm (QUERY_PROMPT env.schema q)) = ""
  · simp only [runNode, query_node, mainInit, Option.getD_some, if_pos hr1, route]
    rw [show (24 : Nat) = 21 + 3 from rfl]
    rw [runFrom_run_query_err env 21 _ "No SQL query generated" q ""
      (by simp [keepNew]) (by simp [keepNew]) (by simp [keepNew])]
    simp [hr1, mergeState, keepNew]
  · simp only [runNode, query_node, mainInit, Option.getD_some, if_neg hr1, route]
    rw [show (24 : Nat) = 21 + 3 from rfl]
    rw [runFrom_run_query_err env 21 _ "" q (pyStrip (env.llm (QUERY_PROMPT env.schema q)))
      (by simp [keepNew]) (by simp [keepNew]) (by simp [keepNew])]
    simp [hr1, mergeState, keepNew]

/-- Once the `error` key is present in the state it is present in the
final state of any traversal: node updates overwrite or keep keys but
never remove them. -/
theorem runFrom_error_isSome (env : Env) (fuel : Nat) (n : Node) (s : SQLState)
    (h : s.error.isSome) : (runFrom env fuel n s).state.error.isSome := by
  induction fuel generalizing n s with
  | zero => simpa [runFrom] using h
  | succ k ih =>
    rw [runFrom_succ]
    cases hno : runNode env n s with
    | none => simpa using h
    | some out =>
      cases hro : route n (mergeState s out.update) with
      | none =>
        simp only [hno, hro]
        simpa using keepNew_isSome out.update.error s.error h
      | some n2 =>
        simp only [hno, hro]
        simpa using ih n2 _ (keepNew_isSome out.update.error s.error h)

/-- Running from `handle_error` with the `sql` key absent: the node
raises an uncaught KeyError. -/
theorem runFrom_handle_error_raise (env : Env) (fuel : Nat) (s : SQLState)
    (hs : s.sql = none) :
    runFrom env (fuel + 1) .handle_error s =
      { state := s, visited := [(.handle_error, s)], status := .raised } := by
  rw [runFrom_succ]
  have hnode : error_handling_node env s = none := by
    cases he : s.error <;> cases hq : s.query <;> simp [error_handling_node, he, hq, hs]
  simp [runNode, hnode]

/-- Bounded-traversal lemma for runs entered at `run_query`: with fuel
at least three the traversal always ends (reaching END or raising), it
executes at most three further nodes, it runs `handle_error` and
`run_query` at most once each, and if it reaches `final_error` the
final state carries the `error` key. -/
theorem runFrom_run_query_bound (env : Env) (fuel : Nat) (s : SQLState) (q : String)
    (hq : s.query = some q) :
    ((runFrom env (fuel + 3) .run_query s).status = .finished ∨
      (runFrom env (fuel + 3) .run_query s).status = .raised) ∧
    (runFrom env (fuel + 3) .run_query s).visited.length ≤ 3 ∧
    ((runFrom env (fuel + 3) .run_query s).visited.map Prod.fst).count .handle_error ≤ 1 ∧
    ((runFrom env (fuel + 3) .run_query s).visited.map Prod.fst).count .run_query ≤ 1 ∧
    (.final_error ∈ (runFrom env (fuel + 3) .run_query s).visited.map Prod.fst →
      (runFrom env (fuel + 3) .run_query s).state.error.isSome) := by
  cases hs : s.sql with
  | none =>
    have hR : runFrom env (fuel + 3) .run_query s =
        { state := mergeState s { error := some keyErrorSql },
          visited := [(.run_query, s),
            (.handle_error, mergeState s { error := some keyErrorSql })],
          status := .raised } := by
      rw [show fuel + 3 = fuel + 2 + 1 from rfl, runFrom_succ]
      simp only [runNode, execute_node, hs]
      have hroute : route .run_query (mergeState s { error := some keyErrorSql }) =
          some .handle_error := by
        simp [route, keepNew]
      simp only [hroute]
      rw [show fuel + 2 = fuel + 1 + 1 from rfl]
      rw [runFrom_handle_error_raise env (fuel + 1) _ (by simp [hs])]
      simp
    rw [hR]
    simp [List.count_cons]
  | some sq =>
    cases herr : s.error with
    | some e0 =>
      rw [runFrom_run_query_err env fuel s e0 q sq herr hq hs]
      simp [List.count_cons, keepNew]
    | none =>
      have hfr := execStmts_update_frame env.dbRun (splitStatements sq) []
      rw [show fuel + 3 = fuel + 2 + 1 from rfl, runFrom_succ]
      simp only [runNode, execute_node, hs]
      cases hex : (execStmts env.dbRun (splitStatements sq) []).2.error with
      | some msg =>
        have hroute : route .run_query
            (mergeState s (execStmts env.dbRun (splitStatements sq) []).2) =
            some .handle_error := by
          simp [route, hex, keepNew]
        simp only [hroute]
        rw [runFrom_handle_error env fuel _ msg q sq
          (by simp [hex]) (by simp [hfr.1, hq]) (by simp [hfr.2.1, hs])]
        simp [List.count_cons, keepNew]
      | none =>
        have hroute : route .run_query
            (mergeState s (execStmts env.dbRun (splitStatements sq) []).2) =
            some .explain_query := by
          simp [route, hex, herr, keepNew]
        simp only [hroute]
        rw [show fuel + 2 = fuel + 1 + 1 from rfl]
        rw [runFrom_explain env (fuel + 1) _ sq (by simp [hfr.2.1, hs])]
        simp [List.count_cons]

/-- Bounded-traversal lemma for whole runs of the compiled graph from
an arbitrary initial state: the run always ends (reaching END or
raising), executes at most four nodes, runs `handle_error` at most
once, and if it reaches `final_error` it ends with the `error` key
present. -/
theorem invokeAgent_bound (env : Env) (s0 : SQLState) :
    ((invokeAgent env s0).status = .finished ∨ (invokeAgent env s0).status = .raised) ∧
    (invokeAgent env s0).visited.length ≤ 4 ∧
    ((invokeAgent env s0).visited.map Prod.fst).count .handle_error ≤ 1 ∧
    (.final_error ∈ (invokeAgent env s0).visited.map Prod.fst →
      (invokeAgent env s0).state.error.isSome) := by
  have h0 : invokeAgent env s0 = runFrom env (24 + 1) .generate_sql s0 := rfl
  rw [h0, runFrom_succ]
  cases hq : s0.query with
  | none => simp [runNode, query_node, hq]
  | some q =>
    simp only [runNode, query_node, hq]
    by_cases hr1 : pyStrip (env.llm (QUERY_PROMPT (s0.schema.getD env.schema) q)) = ""
    · simp only [if_pos hr1, route]
      rw [show (24 : Nat) = 21 + 3 from rfl]
      obtain ⟨hst, hlen, hch, -, hfin⟩ := runFrom_run_query_bound env 21
        (mergeState s0 { error := some "No SQL query generated" }) q (by simp [hq])
      refine ⟨?_, ?_, ?_, ?_⟩
      · rcases hst with h | h <;> simp [h]
      · simpa using Nat.succ_le_succ hlen
      · simpa [List.count_cons] using hch
      · intro hmem
        simp only [List.map_cons, List.mem_cons] at hmem
        rcases hmem with h | h
        · exact absurd h (by simp)
        · simpa using hfin h
    · simp only [if_neg hr1, route]
      rw [show (24 : Nat) = 21 + 3 from rfl]
      obtain ⟨hst, hlen, hch, -, hfin⟩ := runFrom_run_query_bound env 21
        (mergeState s0
          { sql := some (pyStrip (env.llm (QUERY_PROMPT (s0.schema.getD env.schema) q))) })
        q (by simp [hq])
      refine ⟨?_, ?_, ?_, ?_⟩
      · rcases hst with h | h <;> simp [h]
      · simpa using Nat.succ_le_succ hlen
      · simpa [List.count_cons] using hch
      · intro hmem
        simp only [List.map_cons, List.mem_cons] at hmem
        rcases hmem with h | h
        · exact absurd h (by simp)
        · simpa using hfin h

/-- When every statement succeeds, the loop runs all of them in order
and the update carries the outputs joined by newlines. -/
theorem execStmts_all_ok (db : String → Except String String) (res : String → String)
    (stmts acc : List String) (h : ∀ st ∈ stmts, db st = .ok (res st)) :
    execStmts db stmts acc =
      (stmts, { result := some (String.intercalate "\n" (acc.reverse ++ stmts.map res)) }) := by
  induction stmts generalizing acc with
  | nil => simp [execStmts]
  | cons stmt rest ih =>
    have hst : db stmt = .ok (res stmt) := h stmt (by simp)
    have hrest : ∀ st ∈ rest, db st = .ok (res st) := fun st hm => h st (by simp [hm])
    simp [execStmts, hst, ih (res stmt :: acc) hrest]

/-- When an earlier prefix succeeds and the next statement fails, the
loop stops right there: exactly the prefix plus the failing statement
are run, and the update records the failing statement and the message. -/
theorem execStmts_first_error (db : String → Except String String)
    (pre : List String) (bad : String) (rest : List String) (msg : String)
    (acc : List String) (hpre : ∀ st ∈ pre, ∃ r, db st = .ok r)
    (hbad : db bad = .error msg) :
    execStmts db (pre ++ bad :: rest) acc =
      (pre ++ [bad],
       { error := some ("Error executing statement: " ++ bad ++ "\nError: " ++ msg) }) := by
  induction pre generalizing acc with
  | nil => simp [execStmts, hbad]
  | cons p pre ih =>
    obtain ⟨r, hp⟩ := hpre p (by simp)
    have hpre2 : ∀ st ∈ pre, ∃ r, db st = .ok r := fun st hm => hpre st (by simp [hm])
    simp [execStmts, hp, ih (r :: acc) hpre2]

/-- Rebuilding a string from its character list gives the string back. -/
theorem mk_toList (s : String) : String.mk s.toList = s := rfl

/-- Splitting on a separator that does not occur returns the whole
list as the single fragment. -/
theorem splitOnChar_no_sep (sep : Char) (cs : List Char) (h : ∀ c ∈ cs, c ≠ sep) :
    splitOnChar sep cs = [cs] := by
  induction cs with
  | nil => rfl
  | cons c cs ih =>
    have hc : c ≠ sep := h c (by simp)
    have hcs : ∀ x ∈ cs, x ≠ sep := fun x hm => h x (by simp [hm])
    simp [splitOnChar, ih hcs, hc]

/-- A statement text with no semicolon and non-blank after stripping
yields exactly one statement: its stripped form. -/
theorem splitStatements_no_semi (sql : String) (hns : ∀ c ∈ sql.toList, c ≠ ';')
    (hnb : pyStrip sql ≠ "") : splitStatements sql = [pyStrip sql] := by
  unfold splitStatements
  rw [splitOnChar_no_sep ';' sql.toList hns]
  simp [mk_toList, hnb]

/-- The update of the generation and repair branches, projected:
neither branch writes the `query` field. -/
theorem updIf_query (c : Prop) [Decidable c] (x y : String) :
    (if c then ({ error := some x } : SQLState) else { sql := some y }).query = none := by
  split <;> rfl

/-- The update of the generation and repair branches, projected:
neither branch writes the `schema` field. -/
theorem updIf_schema (c : Prop) [Decidable c] (x y : String) :
    (if c then ({ error := some x } : SQLState) else { sql := some y }).schema = none := by
  split <;> rfl

/-- No node function ever writes the `query` or `schema` fields. -/
theorem runNode_frame (env : Env) (n : Node) (s : SQLState) (out : NodeOut)
    (h : runNode env n s = some out) :
    out.update.query = none ∧ out.update.schema = none := by
  cases n with
  | generate_sql =>
    simp only [runNode] at h
    unfold query_node at h
    cases hq : s.query with
    | none => rw [hq] at h; exact Option.noConfusion h
    | some qq =>
      rw [hq] at h
      dsimp only at h
      by_cases hb : pyStrip (env.llm (QUERY_PROMPT (s.schema.getD env.schema) qq)) = ""
      · rw [if_pos hb, Option.some_inj] at h; subst h; exact ⟨rfl, rfl⟩
      · rw [if_neg hb, Option.some_inj] at h; subst h; exact ⟨rfl, rfl⟩
  | run_query =>
    simp only [runNode, Option.some_inj] at h
    subst h
    cases hs : s.sql with
    | none => simp [execute_node, hs]
    | some sq =>
      have hfr := execStmts_update_frame env.dbRun (splitStatements sq) []
      simp [execute_node, hs, hfr.1, hfr.2.2.1]
  | explain_query =>
    simp only [runNode] at h
    unfold explain_node at h
    cases hs : s.sql with
    | none => rw [hs] at h; exact Option.noConfusion h
    | some sq =>
      rw [hs] at h
      dsimp only at h
      rw [Option.some_inj] at h; subst h; exact ⟨rfl, rfl⟩
  | handle_error =>
    simp only [runNode] at h
    unfold error_handling_node at h
    cases he : s.error with
    | none =>
      rw [he] at h
      cases s.query <;> cases s.sql <;> exact Option.noConfusion h
    | some e =>
      rw [he] at h
      cases hq : s.query with
      | none => rw [hq] at h; cases s.sql <;> exact Option.noConfusion h
      | some qq =>
        rw [hq] at h
        cases hs : s.sql with
        | none => rw [hs] at h; exact Option.noConfusion h
        | some sq =>
          rw [hs] at h
          dsimp only at h
          by_cases hb : pyStrip (env.llm
              (ERROR_HANDLING_PROMPT e (s.schema.getD env.schema) qq sq)) = ""
          · rw [if_pos hb, Option.some_inj] at h; subst h; exact ⟨rfl, rfl⟩
          · rw [if_neg hb, Option.some_inj] at h; subst h; exact ⟨rfl, rfl⟩
  | final_error =>
    simp only [runNode, Option.some_inj] at h
    subst h
    exact ⟨rfl, rfl⟩

/-! ### Claims -/

/-- C1 (evaluation at the failing input): in a main-loop run whose
first execution succeeds (the stub model answers `SELECT 1`, the
database accepts it with output `one`), the final WorkItem still has
its `error` field set (to the `Final error: ` prefix of the initial
empty error value), the `explanation` field keeps its initial empty
value, and `explain_query` is never reached: the run goes through
`handle_error` and `final_error` instead, contradicting the claim. -/
theorem c1_success_run_still_fails :
    (mainRun envOk "q").state.result = some "one" ∧
    (mainRun envOk "q").state.error = some "Final error: " ∧
    (mainRun envOk "q").state.explanation = some "" ∧
    (mainRun envOk "q").visited.map Prod.fst =
      [.generate_sql, .run_query, .handle_error, .final_error] ∧
    .explain_query ∉ (mainRun envOk "q").visited.map Prod.fst := by
  refine ⟨?_, ?_, ?_, ?_, ?_⟩ <;> decide

/-- C2: every traversal of the compiled graph terminates after a
bounded number of steps — at most four node executions, with the
repair node and the execution node each run at most once (so a
`repair, execute, repair` cycle is impossible), and whenever the
traversal reaches the terminal failure node the final state carries
the `error` field. -/
theorem c2_bounded_termination (env : Env) (s0 : SQLState) :
    ((invokeAgent env s0).status = .finished ∨ (invokeAgent env s0).status = .raised) ∧
    (invokeAgent env s0).visited.length ≤ 4 ∧
    ((invokeAgent env s0).visited.map Prod.fst).count .handle_error ≤ 1 ∧
    ((invokeAgent env s0).visited.map Prod.fst).count .run_query ≤ 1 ∧
    (.final_error ∈ (invokeAgent env s0).visited.map Prod.fst →
      (invokeAgent env s0).state.error.isSome) := by
  have h0 : invokeAgent env s0 = runFrom env (24 + 1) .generate_sql s0 := rfl
  rw [h0, runFrom_succ]
  cases hq : s0.query with
  | none => simp [runNode, query_node, hq]
  | some q =>
    simp only [runNode, query_node, hq]
    by_cases hr1 : pyStrip (env.llm (QUERY_PROMPT (s0.schema.getD env.schema) q)) = ""
    · simp only [if_pos hr1, route]
      rw [show (24 : Nat) = 21 + 3 from rfl]
      obtain ⟨hst, hlen, hch, hrq, hfin⟩ := runFrom_run_query_bound env 21
        (mergeState s0 { error := some "No SQL query generated" }) q (by simp [hq])
      refine ⟨?_, ?_, ?_, ?_, ?_⟩
      · rcases hst with h | h <;> simp [h]
      · simpa using Nat.succ_le_succ hlen
      · simpa [List.count_cons] using hch
      · simpa [List.count_cons] using hrq
      · intro hmem
        simp only [List.map_cons, List.mem_cons] at hmem
        rcases hmem with h | h
        · exact absurd h (by simp)
        · simpa using hfin h
    · simp only [if_neg hr1, route]
      rw [show (24 : Nat) = 21 + 3 from rfl]
      obtain ⟨hst, hlen, hch, hrq, hfin⟩ := runFrom_run_query_bound env 21
        (mergeState s0
          { sql := some (pyStrip (env.llm (QUERY_PROMPT (s0.schema.getD env.schema) q))) })
        q (by simp [hq])
      refine ⟨?_, ?_, ?_, ?_, ?_⟩
      · rcases hst with h | h <;> simp [h]
      · simpa using Nat.succ_le_succ hlen
      · simpa [List.count_cons] using hch
      · simpa [List.count_cons] using hrq
      · intro hmem
        simp only [List.map_cons, List.mem_cons] at hmem
        rcases hmem with h | h
        · exact absurd h (by simp)
        · simpa using hfin h

/-- Witness for C2: the bound evaluated on a concrete environment and
the initial state `main` builds, with the membership hypothesis of the
final conjunct discharged by computation. -/
theorem c2_bounded_termination_witness :
    (invokeAgent envOk (mainInit envOk "w")).visited.length ≤ 4 ∧
    ((invokeAgent envOk (mainInit envOk "w")).visited.map Prod.fst).count .handle_error ≤ 1 ∧
    (invokeAgent envOk (mainInit envOk "w")).state.error.isSome := by
  obtain ⟨-, hlen, hch, -, hfin⟩ := c2_bounded_termination envOk (mainInit envOk "w")
  exact ⟨hlen, hch, hfin (by decide)⟩

/-- C3 (evaluation at the failing input): the first execution fails
(`BAD` is rejected with `boom`), the repair step returns the non-blank
corrected query `GOOD`, and the database would accept `GOOD` — yet the
traversal routes from the repair step to the terminal failure node,
never re-executes (`run_query` is visited exactly once and only `BAD`
was ever handed to the database), and the final WorkItem has `error`
set; only its `sql` field carries the repaired text. -/
theorem c3_repair_never_reexecutes :
    (mainRun envRepair "qq").state.sql = some "GOOD" ∧
    (mainRun envRepair "qq").state.error = some ("Final error: " ++ errBAD) ∧
    envRepair.dbRun "GOOD" = Except.ok "fine" ∧
    (mainRun envRepair "qq").visited.map Prod.fst =
      [.generate_sql, .run_query, .handle_error, .final_error] ∧
    ((mainRun envRepair "qq").visited.map Prod.fst).count .run_query = 1 ∧
    (mainRun envRepair "qq").executed = ["BAD"] := by
  exact ⟨by decide, by decide, rfl, by decide, by decide, by decide⟩

/-- C4 counterexample: with a stub model that returns blank text, the
generation step records its error but the execute step IS invoked
(`run_query` appears in the node trace), contrary to the claim that
the execute step is never invoked in such a run. -/
theorem c4_execute_invoked_counterexample :
    pyStrip (envBlank.llm (QUERY_PROMPT envBlank.schema "q")) = "" ∧
    .run_query ∈ (mainRun envBlank "q").visited.map Prod.fst := by
  refine ⟨?_, ?_⟩ <;> decide

/-- C4 (amended): when the model returns blank text at the generation
step, the run records the error `No SQL query generated`, and no
statement is ever handed to the database — the execute step is reached
over the unconditional edge but executes zero statements (the `sql`
field is the empty string); if the repair response is non-blank, the
final error is exactly the generation error under the terminal
prefix. -/
theorem c4_blank_generation (env : Env) (q : String)
    (hblank : pyStrip (env.llm (QUERY_PROMPT env.schema q)) = "") :
    (mainRun env q).executed = [] ∧
    (mainRun env q).visited.map Prod.fst =
      [.generate_sql, .run_query, .handle_error, .final_error] ∧
    (pyStrip (env.llm (ERROR_HANDLING_PROMPT "No SQL query generated" env.schema q "")) ≠ "" →
      (mainRun env q).state.error = some "Final error: No SQL query generated") := by
  rw [mainRun_eq]
  have hsplit : splitStatements "" = [] := rfl
  simp only [mainTrace, if_pos hblank, hsplit, execStmts]
  refine ⟨by simp, by simp, ?_⟩
  intro hr2
  simp [if_neg hr2, keepNew]

/-- Witness for C4: the amended statement evaluated on a stub model
that is blank on the generation prompt and non-blank on the repair
prompt. -/
theorem c4_blank_generation_witness :
    (mainRun envBlankGen "q4").executed = [] ∧
    (mainRun envBlankGen "q4").state.error =
      some "Final error: No SQL query generated" := by
  have h := c4_blank_generation envBlankGen "q4" (by decide)
  exact ⟨h.1, h.2.2 (by decide)⟩

/-- C5 counterexample: the empty string is an input with no semicolon,
yet it yields zero statements rather than exactly one, and the execute
step runs nothing on it. -/
theorem c5_no_semicolon_counterexample :
    (∀ c ∈ ("" : String).toList, c ≠ ';') ∧
    splitStatements "" = [] ∧
    (execute_node envOk { sql := some "" }).executed = [] := by
  refine ⟨?_, ?_, ?_⟩ <;> decide

/-- C5 (amended): the execute step splits its input on semicolons,
discards whitespace-only fragments, and runs the remaining statements
in order: if all succeed, the update carries the outputs joined by
newlines; if one fails, the loop stops at the first failing statement
and the error carries that statement and the database message.  The
input `SELECT 1; SELECT 2;` yields exactly the two statements in
order, and a non-blank input with no semicolon yields exactly one (its
stripped form); a blank input yields none. -/
theorem c5_execute_semantics (env : Env) (s : SQLState) (sql : String)
    (hs : s.sql = some sql) :
    (∀ res : String → String,
      (∀ st ∈ splitStatements sql, env.dbRun st = Except.ok (res st)) →
      execute_node env s =
        { update :=
            { result := some (String.intercalate "\n" ((splitStatements sql).map res)) },
          executed := splitStatements sql }) ∧
    (∀ pre bad rest msg, splitStatements sql = pre ++ bad :: rest →
      (∀ st ∈ pre, ∃ r, env.dbRun st = Except.ok r) →
      env.dbRun bad = Except.error msg →
      execute_node env s =
        { update :=
            { error := some ("Error executing statement: " ++ bad ++ "\nError: " ++ msg) },
          executed := pre ++ [bad] }) ∧
    splitStatements "SELECT 1; SELECT 2;" = ["SELECT 1", "SELECT 2"] ∧
    ((∀ c ∈ sql.toList, c ≠ ';') → pyStrip sql ≠ "" →
      splitStatements sql = [pyStrip sql]) := by
  refine ⟨?_, ?_, by decide, fun hns hnb => splitStatements_no_semi sql hns hnb⟩
  · intro res hok
    simp [execute_node, hs, execStmts_all_ok env.dbRun res (splitStatements sql) [] hok]
  · intro pre bad rest msg hsplit hpre hbad
    simp [execute_node, hs, hsplit,
      execStmts_first_error env.dbRun pre bad rest msg [] hpre hbad]

/-- Witness for C5: the all-success case on `SELECT 1; SELECT 2;` and
the no-semicolon case on `SELECT 1`, hypotheses discharged by
computation. -/
theorem c5_execute_semantics_witness :
    execute_node envOk ({ sql := some "SELECT 1; SELECT 2;" } : SQLState) =
      { update := { result := some "one\none" },
        executed := ["SELECT 1", "SELECT 2"] } ∧
    splitStatements "SELECT 1" = ["SELECT 1"] := by
  have h := c5_execute_semantics envOk ({ sql := some "SELECT 1; SELECT 2;" } : SQLState)
    "SELECT 1; SELECT 2;" rfl
  have h2 := c5_execute_semantics envOk ({ sql := some "SELECT 1" } : SQLState)
    "SELECT 1" rfl
  constructor
  · have hr := h.1 (fun _ => "one") (by decide)
    rw [hr]
    decide
  · exact h2.2.2.2 (by decide) (by decide)

/-- C6 counterexample: in a main-loop run with a blank generation, the
execute step runs in a state whose `sql` key holds the empty string,
refuting the invariant that `sql` is always non-empty when the execute
step runs; moreover, after that execution attempt the final state
carries both the `result` key and the `error` key, refuting the
exactly-one reading at the state level. -/
theorem c6_invariants_counterexample :
    (.run_query, sRunEmptySql) ∈ (mainRun envBlank "q").visited ∧
    sRunEmptySql.sql = some "" ∧
    (mainRun envBlank "q").state.result = some "" ∧
    (mainRun envBlank "q").state.error.isSome := by
  refine ⟨?_, ?_, ?_, ?_⟩ <;> decide

/-- C6 (amended): the update produced by the execute step sets exactly
one of `result` and `error`; the `sql` field may be empty when the
execute step runs, in which case zero statements are executed; the
`error` key, once present, is never removed by the rest of the
traversal, so a successful repair-and-re-run cycle never clears it —
the retry is always abandoned, and a main-loop run executes the
execution step exactly once. -/
theorem c6_execution_invariants (env : Env) (s : SQLState) (q : String) :
    (execute_node env s).update.result.isSome =
      !((execute_node env s).update.error.isSome) ∧
    (s.sql = some "" → (execute_node env s).executed = []) ∧
    (∀ (fuel : Nat) (n : Node) (s2 : SQLState), s2.error.isSome →
      (runFrom env fuel n s2).state.error.isSome) ∧
    ((mainRun env q).visited.map Prod.fst).count .run_query = 1 := by
  refine ⟨?_, ?_, fun fuel n s2 h => runFrom_error_isSome env fuel n s2 h, ?_⟩
  · cases hs : s.sql with
    | none => simp [execute_node, hs]
    | some sq =>
      simpa [execute_node, hs] using
        execStmts_result_error env.dbRun (splitStatements sq) []
  · intro hsql
    have hsplit : splitStatements "" = [] := rfl
    simp [execute_node, hsql, hsplit, execStmts]
  · rw [mainRun_eq]
    by_cases hr1 : pyStrip (env.llm (QUERY_PROMPT env.schema q)) = "" <;>
      simp [mainTrace, hr1, List.count_cons]

/-- Witness for C6: the empty-`sql` case and the error-preservation
case evaluated at concrete inputs, hypotheses discharged by
computation. -/
theorem c6_execution_invariants_witness :
    (execute_node envOk sRunEmptySql).executed = [] ∧
    (runFrom envOk 3 .explain_query sRunEmptySql).state.error.isSome := by
  have h := c6_execution_invariants envOk sRunEmptySql "q"
  exact ⟨h.2.1 (by decide), h.2.2.1 3 .explain_query sRunEmptySql (by decide)⟩

/-- C7: in a main-loop run no failure escapes the workflow: for every
model and database behaviour the traversal reaches END (status
`finished`, never an uncaught exception), it routes through the repair
step and the terminal failure step, and the caller receives a WorkItem
whose `error` field is populated. -/
theorem c7_errors_contained (env : Env) (q : String) :
    (mainRun env q).status = .finished ∧
    (mainRun env q).state.error.isSome ∧
    (mainRun env q).visited.map Prod.fst =
      [.generate_sql, .run_query, .handle_error, .final_error] := by
  rw [mainRun_eq]
  by_cases hr1 : pyStrip (env.llm (QUERY_PROMPT env.schema q)) = "" <;>
    simp [mainTrace, hr1, keepNew]

/-- C8: the `question` field is never modified after it is set and the
`schema` field is passed through unchanged: the final state and every
state any node sees keep the initial question and schema, no node
update ever writes the `query` or `schema` fields, and every prompt
built during a main-loop run embeds the once-fetched schema (the
generation prompt and the repair prompt carry it verbatim; the
explanation prompt contains no schema). -/
theorem c8_question_schema_frame (env : Env) (q : String) :
    (mainRun env q).state.query = some q ∧
    (mainRun env q).state.schema = some env.schema ∧
    (∀ p ∈ (mainRun env q).visited,
      p.2.query = some q ∧ p.2.schema = some env.schema) ∧
    (∀ (env2 : Env) (n : Node) (s : SQLState) (out : NodeOut),
      runNode env2 n s = some out →
      out.update.query = none ∧ out.update.schema = none) ∧
    (∀ p ∈ (mainRun env q).prompts,
      p = QUERY_PROMPT env.schema q ∨
      (∃ e sq, p = ERROR_HANDLING_PROMPT e env.schema q sq) ∨
      (∃ sq, p = EXPLANATION_PROMPT sq)) := by
  rw [mainRun_eq]
  by_cases hr1 : pyStrip (env.llm (QUERY_PROMPT env.schema q)) = ""
  · have hfr := execStmts_update_frame env.dbRun (splitStatements "") []
    refine ⟨?_, ?_, ?_, fun env2 n s out h => runNode_frame env2 n s out h, ?_⟩
    · simp [mainTrace, hr1, mainInit, keepNew, hfr.1, updIf_query]
    · simp [mainTrace, hr1, mainInit, keepNew, hfr.2.2.1, updIf_schema]
    · intro p hp
      simp only [mainTrace, if_pos hr1, List.mem_cons, List.not_mem_nil, or_false] at hp
      rcases hp with rfl | rfl | rfl | rfl <;>
        simp [mainInit, keepNew, hfr.1, hfr.2.2.1, updIf_query, updIf_schema]
    · intro p hp
      simp only [mainTrace, if_pos hr1, List.mem_cons, List.not_mem_nil, or_false] at hp
      rcases hp with rfl | rfl
      · exact Or.inl rfl
      · exact Or.inr (Or.inl ⟨_, _, rfl⟩)
  · have hfr := execStmts_update_frame env.dbRun
      (splitStatements (pyStrip (env.llm (QUERY_PROMPT env.schema q)))) []
    refine ⟨?_, ?_, ?_, fun env2 n s out h => runNode_frame env2 n s out h, ?_⟩
    · simp [mainTrace, hr1, mainInit, keepNew, hfr.1, updIf_query]
    · simp [mainTrace, hr1, mainInit, keepNew, hfr.2.2.1, updIf_schema]
    · intro p hp
      simp only [mainTrace, if_neg hr1, List.mem_cons, List.not_mem_nil, or_false] at hp
      rcases hp with rfl | rfl | rfl | rfl <;>
        simp [mainInit, keepNew, hfr.1, hfr.2.2.1, updIf_query, updIf_schema]
    · intro p hp
      simp only [mainTrace, if_neg hr1, List.mem_cons, List.not_mem_nil, or_false] at hp
      rcases hp with rfl | rfl
      · exact Or.inl rfl
      · exact Or.inr (Or.inl ⟨_, _, rfl⟩)

/-- Witness for C8: the frame conditions evaluated on a concrete run,
with the membership hypothesis discharged by computation on the first
node of the trace. -/
theorem c8_question_schema_frame_witness :
    (mainRun envOk "q").state.query = some "q" ∧
    (mainRun envOk "q").state.schema = some "SCH" ∧
    (mainInit envOk "q").query = some "q" := by
  have h := c8_question_schema_frame envOk "q"
  exact ⟨h.1, h.2.1,
    (h.2.2.1 (.generate_sql, mainInit envOk "q") (by decide)).1⟩

/-- C9: the workflow is deterministic in its inputs: two runs against
model and database stand-ins that agree as functions, with the same
schema and the same question, produce identical `sql` and `result`
fields. -/
theorem c9_deterministic (e1 e2 : Env) (q : String)
    (hl : e1.llm = e2.llm) (hd : e1.dbRun = e2.dbRun) (hs : e1.schema = e2.schema) :
    (mainRun e1 q).state.sql = (mainRun e2 q).state.sql ∧
    (mainRun e1 q).state.result = (mainRun e2 q).state.result := by
  have he : e1 = e2 := by
    cases e1; cases e2; simp_all
  subst he
  exact ⟨rfl, rfl⟩

/-- Witness for C9: determinism applied to two definitionally equal
environments, all three hypotheses discharged by `rfl`. -/
theorem c9_deterministic_witness :
    (mainRun envOk "q").state.sql = (mainRun envOkTwin "q").state.sql ∧
    (mainRun envOk "q").state.result = (mainRun envOkTwin "q").state.result :=
  c9_deterministic envOk envOkTwin "q" rfl rfl rfl

/-- C10: the conditional dispatch depends only on the presence of the
`error` key, not on its value: every state carrying the key (even with
the empty-string value) is routed to `handle_error` after `run_query`
and to `final_error` after `handle_error`; the initial state built by
`main` carries the key set to the empty string, so every main-loop run
visits `handle_error` regardless of whether execution succeeded. -/
theorem c10_routing_on_error_key_presence :
    (∀ s : SQLState, s.error.isSome →
      route .run_query s = some .handle_error ∧
      route .handle_error s = some .final_error) ∧
    (∀ (env : Env) (q : String),
      (mainInit env q).error = some "" ∧
      .handle_error ∈ (mainRun env q).visited.map Prod.fst) := by
  constructor
  · intro s h
    constructor <;> simp [route, h]
  · intro env q
    refine ⟨rfl, ?_⟩
    rw [mainRun_eq]
    by_cases hr1 : pyStrip (env.llm (QUERY_PROMPT env.schema q)) = "" <;>
      simp [mainTrace, hr1]

/-- Witness for C10: the routing rules applied to a concrete state
whose `error` key holds the empty string, the presence hypothesis
discharged by computation. -/
theorem c10_routing_witness :
    route .run_query sErrOnly = some .handle_error ∧
    route .handle_error sErrOnly = some .final_error :=
  c10_routing_on_error_key_presence.1 sErrOnly (by decide)

end SQLAgent
